import Mathlib

/-!
# Verification of the costdrill cost aggregation and categorization pipeline

A shallow embedding of the core of the `costdrill` repository:

* `costdrill/core/models.py` — the cost model value types,
* `costdrill/core/parsers.py` — `CostExplorerParser`,
* `costdrill/core/ec2_cost_analyzer.py` — `EC2CostAnalyzer`,
* `costdrill/core/ec2_cost_aggregator.py` — `EC2CostAggregator`,
* `costdrill/core/cost_explorer.py` — `CostExplorer` date validation,
* `costdrill/utils/cache.py` — `SimpleCache` and `generate_cache_key`.

Conventions of the embedding:

* Python floats are modelled as rationals (`ℚ`); all the arithmetic in the
  pipeline is sums, differences and divisions of parsed decimal amounts.
* `datetime` values are modelled as rationals measured in days, so
  `timedelta(days=n)` is the rational `n`.
* Python dicts that the code iterates or updates are modelled as
  insertion-ordered association lists with last-write-wins update, which is
  exactly the Python dict semantics the code relies on.
* Fallible operations (network fetches, cache deserialization) are modelled
  as `Except`/`Option` valued oracles passed in as arguments.
-/

namespace Costdrill

/-! ## Generic helpers: Python dict and string primitives -/

/-- Lookup in an insertion-ordered association list (Python `d[k]` /
`d.get(k)`). -/
def dictGet? {β : Type} (d : List (String × β)) (k : String) : Option β :=
  (d.find? (fun kv => kv.1 == k)).map (fun kv => kv.2)

/-- Python `d[k] = v`: replace the (unique) existing binding in place,
keeping its position, otherwise append at the end — Python dict insertion
order semantics. -/
def dictSet {β : Type} : List (String × β) → String → β → List (String × β)
  | [], k, v => [(k, v)]
  | kv :: rest, k, v =>
    if kv.1 == k then (k, v) :: rest else kv :: dictSet rest k v

/-- Python `del d[k]` (no-op when absent, as in `SimpleCache` where deletion
is guarded by an existence check). -/
def dictDelete {β : Type} (d : List (String × β)) (k : String) :
    List (String × β) :=
  d.filter (fun kv => !(kv.1 == k))

/-- Does `needle` occur as a prefix of `hay`? (helper for substring search). -/
def charsStartWith : List Char → List Char → Bool
  | _, [] => true
  | [], _ :: _ => false
  | h :: hs, n :: ns => h == n && charsStartWith hs ns

/-- Does `needle` occur as a contiguous run inside `hay`?  This is Python's
`needle in hay` on strings, and also the semantics of `re.search` for a
regex that is a literal string. -/
def charsContain : List Char → List Char → Bool
  | [], n => n.isEmpty
  | h :: t, n => charsStartWith (h :: t) n || charsContain t n

/-- Python `needle in hay` for strings. -/
def strContains (hay needle : String) : Bool :=
  charsContain hay.data needle.data

/-- Python `str.split(sep)` for a single-character separator, on character
lists.  Returns the first field and the remaining fields, so the full field
list `h :: t` is always non-empty (Python: `"".split("$") == [""]`). -/
def splitOnChar (sep : Char) : List Char → List Char × List (List Char)
  | [] => ([], [])
  | c :: rest =>
    let s := splitOnChar sep rest
    if c = sep then ([], s.1 :: s.2) else (c :: s.1, s.2)

/-- Python `s.split(sep)` (single-character separator) as a list of strings. -/
def strSplit (s : String) (sep : Char) : List String :=
  let p := splitOnChar sep s.data
  String.mk p.1 :: p.2.map String.mk

/-! ## Cost model (`costdrill/core/models.py`) -/

/-- `CostAmount`: a cost amount with a currency unit. -/
structure CostAmount where
  amount : ℚ
  unit : String := "USD"
  deriving Repr, DecidableEq

/-- `CostMetrics`: cost metrics for a time period.  Only the unblended cost
is mandatory; `usage_quantity` is an optional plain number. -/
structure CostMetrics where
  unblended_cost : CostAmount
  blended_cost : Option CostAmount := none
  amortized_cost : Option CostAmount := none
  net_unblended_cost : Option CostAmount := none
  net_amortized_cost : Option CostAmount := none
  usage_quantity : Option ℚ := none
  deriving Repr, DecidableEq

/-- `CostBreakdown`: one grouped line item (dimension category, dimension
value, its cost and full metrics). -/
structure CostBreakdown where
  category : String
  key : String
  cost : CostAmount
  metrics : CostMetrics
  deriving Repr, DecidableEq

/-! ## Raw billing API response (input shape of `parsers.py`)

The raw response is a nested JSON-ish payload.  Numeric amounts arrive as
decimal strings and are converted with `float(...)`; the embedding carries
the already-decoded rational.  Date strings (`YYYY-MM-DD`) are carried as
their decoded day number (a rational); no claim concerns date-string
parsing itself. -/

/-- A raw `{"Amount": ..., "Unit": ...}` object. -/
structure RawAmount where
  amount : ℚ
  unit : String := "USD"
  deriving Repr, DecidableEq

/-- A raw metrics dictionary: each metric key is optionally present. -/
structure RawMetricsDict where
  unblendedCost : Option RawAmount := none
  blendedCost : Option RawAmount := none
  amortizedCost : Option RawAmount := none
  netUnblendedCost : Option RawAmount := none
  netAmortizedCost : Option RawAmount := none
  usageQuantity : Option RawAmount := none
  deriving Repr, DecidableEq

/-- A raw group: composite key strings plus a metrics dictionary
(`group.get("Metrics", {})` makes an absent dictionary the all-absent one). -/
structure RawGroup where
  keys : List String := []
  metrics : RawMetricsDict := {}
  deriving Repr, DecidableEq

/-- One raw `ResultByTime` entry. -/
structure RawResultByTime where
  periodStart : ℚ
  periodEnd : ℚ
  total : RawMetricsDict := {}
  groups : List RawGroup := []
  estimated : Bool := false
  deriving Repr, DecidableEq

/-- A raw `GetCostAndUsage` response. -/
structure RawResponse where
  resultsByTime : List RawResultByTime := []
  dimensionValueAttributes : List (String × List (String × String)) := []
  deriving Repr, DecidableEq

/-- `TimeSeriesCost`: cost data for one period.  `groups` keeps the raw
grouping metadata, as in the source. -/
structure TimeSeriesCost where
  start_date : ℚ
  end_date : ℚ
  metrics : CostMetrics
  groups : List RawGroup := []
  estimated : Bool := false
  deriving Repr, DecidableEq

/-- `TimeSeriesCost.total_cost`: the primary (unblended) cost amount. -/
def TimeSeriesCost.total_cost (ts : TimeSeriesCost) : ℚ :=
  ts.metrics.unblended_cost.amount

/-- `CostSummary`: summary of costs over a period. -/
structure CostSummary where
  start_date : ℚ
  end_date : ℚ
  time_series : List TimeSeriesCost
  total_cost : CostAmount
  breakdowns : List CostBreakdown := []
  dimension_values : List (String × List (String × String)) := []
  deriving Repr, DecidableEq

/-! ## Response parser (`costdrill/core/parsers.py`) -/

/-- `CostAmount.from_aws_response` applied to an already-decoded raw amount. -/
def costAmountOfRaw (r : RawAmount) : CostAmount :=
  { amount := r.amount, unit := r.unit }

/-- `CostExplorerParser.parse_metrics`: unblended cost defaults to a zero
USD amount when absent; every other metric is kept only when present. -/
def parse_metrics (d : RawMetricsDict) : CostMetrics where
  unblended_cost := costAmountOfRaw (d.unblendedCost.getD { amount := 0, unit := "USD" })
  blended_cost := d.blendedCost.map costAmountOfRaw
  amortized_cost := d.amortizedCost.map costAmountOfRaw
  net_unblended_cost := d.netUnblendedCost.map costAmountOfRaw
  net_amortized_cost := d.netAmortizedCost.map costAmountOfRaw
  usage_quantity := d.usageQuantity.map (fun a => a.amount)

/-- `CostExplorerParser.parse_time_series`. -/
def parse_time_series (r : RawResultByTime) : TimeSeriesCost where
  start_date := r.periodStart
  end_date := r.periodEnd
  metrics := parse_metrics r.total
  groups := r.groups
  estimated := r.estimated

/-- The composite group-key split of `parse_cost_and_usage_response`:
`key_parts = keys[0].split("$")`; when the split yields more than one part
the category is part 0 and the key is part 1, otherwise the category is
`"UNKNOWN"` and the key is the whole string. -/
def splitCategoryKey (s : String) : String × String :=
  match strSplit s '$' with
  | p0 :: p1 :: _ => (p0, p1)
  | _ => ("UNKNOWN", s)

/-- The breakdown entries contributed by one raw group (groups with an empty
`Keys` list are skipped by the `if keys:` guard). -/
def parse_group_breakdowns (g : RawGroup) : List CostBreakdown :=
  match g.keys with
  | [] => []
  | k0 :: _ =>
    let m := parse_metrics g.metrics
    let ck := splitCategoryKey k0
    [{ category := ck.1, key := ck.2, cost := m.unblended_cost, metrics := m }]

/-- `CostExplorerParser.parse_cost_and_usage_response`.  `now` is the value
of `datetime.now()` used by the empty-response branch. -/
def parse_cost_and_usage_response (response : RawResponse) (now : ℚ) :
    CostSummary :=
  match response.resultsByTime with
  | [] =>
    { start_date := now
      end_date := now
      time_series := []
      total_cost := { amount := 0 }
      breakdowns := [] }
  | first :: rest =>
    let results := first :: rest
    let time_series := results.map parse_time_series
    let total_amount := (time_series.map TimeSeriesCost.total_cost).sum
    let breakdowns := results.flatMap (fun r => r.groups.flatMap parse_group_breakdowns)
    let dimension_values :=
      response.dimensionValueAttributes.filter (fun kv => !(kv.1 == ""))
    -- `results_by_time[-1]`: the last period of the non-empty list
    { start_date := first.periodStart
      end_date := (rest.getLastD first).periodEnd
      time_series := time_series
      total_cost := { amount := total_amount }
      breakdowns := breakdowns
      dimension_values := dimension_values }

/-! ## Cost analyzer (`costdrill/core/ec2_cost_analyzer.py`)

The categorization regexes are alternations of literal substrings compiled
with `re.IGNORECASE`; `re.search` of such an alternation is exactly a
case-insensitive substring test against each pattern.  The only pattern
with a regex metacharacter is `"EBS:Volume.*"`, whose `search` semantics
(the literal `EBS:Volume` followed by anything, anywhere in the string)
coincide with searching for the substring `EBS:Volume`; it is carried here
as that substring. -/

def COMPUTE_PATTERNS : List String :=
  ["BoxUsage", "HeavyUsage", "SpotUsage", "ReservedInstanceUsage",
   "UnusedBox", "UnusedDed"]

def STORAGE_PATTERNS : List String :=
  ["EBS:VolumeUsage", "EBS:VolumeP-IOPS", "EBS:SnapshotUsage", "EBS:Volume"]

def DATA_TRANSFER_PATTERNS : List String :=
  ["DataTransfer", "InterRegion", "PublicIP"]

def SNAPSHOT_PATTERNS : List String :=
  ["EBS:SnapshotUsage"]

def ELASTIC_IP_PATTERNS : List String :=
  ["ElasticIP", "IdleAddress"]

/-- Case folding of a string's characters (the effect of `re.IGNORECASE`
over the ASCII patterns in play). -/
def lowerChars (s : String) : List Char :=
  s.data.map Char.toLower

/-- `re.search` of the compiled case-insensitive alternation of `pats`
against `s`: some pattern occurs in `s` ignoring case. -/
def regexSearch (pats : List String) (s : String) : Bool :=
  pats.any (fun p => charsContain (lowerChars s) (lowerChars p))

/-- The six cost categories of the `if/elif` chain in
`analyze_cost_breakdown`. -/
inductive Category where
  | compute
  | snapshot
  | storage
  | dataTransfer
  | elasticIp
  | other
  deriving Repr, DecidableEq

/-- The category assigned to one usage-type string: the `if/elif` chain of
`analyze_cost_breakdown`, in source order — compute, snapshot, storage,
data transfer, elastic IP, else other. -/
def categorize (usage_type : String) : Category :=
  if regexSearch COMPUTE_PATTERNS usage_type then .compute
  else if regexSearch SNAPSHOT_PATTERNS usage_type then .snapshot
  else if regexSearch STORAGE_PATTERNS usage_type then .storage
  else if regexSearch DATA_TRANSFER_PATTERNS usage_type then .dataTransfer
  else if regexSearch ELASTIC_IP_PATTERNS usage_type then .elasticIp
  else .other

/-- The mutable loop state of `analyze_cost_breakdown`: the six running
category totals and the `usage_type_breakdown` dict. -/
structure CatAcc where
  compute_cost : ℚ := 0
  storage_cost : ℚ := 0
  data_transfer_cost : ℚ := 0
  snapshot_cost : ℚ := 0
  elastic_ip_cost : ℚ := 0
  other_costs : ℚ := 0
  usage_type_breakdown : List (String × CostAmount) := []
  deriving Repr, DecidableEq

/-- One iteration of the categorization loop: store the line item in the
usage-type dict, then add its amount to the category chosen by the
`if/elif` chain. -/
def categorizeStep (acc : CatAcc) (b : CostBreakdown) : CatAcc :=
  let acc := { acc with
    usage_type_breakdown := dictSet acc.usage_type_breakdown b.key b.cost }
  match categorize b.key with
  | .compute => { acc with compute_cost := acc.compute_cost + b.cost.amount }
  | .snapshot => { acc with snapshot_cost := acc.snapshot_cost + b.cost.amount }
  | .storage => { acc with storage_cost := acc.storage_cost + b.cost.amount }
  | .dataTransfer =>
    { acc with data_transfer_cost := acc.data_transfer_cost + b.cost.amount }
  | .elasticIp =>
    { acc with elastic_ip_cost := acc.elastic_ip_cost + b.cost.amount }
  | .other => { acc with other_costs := acc.other_costs + b.cost.amount }

/-- The whole categorization loop over the summary's breakdowns. -/
def categorizeAll (breakdowns : List CostBreakdown) : CatAcc :=
  breakdowns.foldl categorizeStep {}

/-- `EC2CostAnalyzer._calculate_running_hours`: return the usage quantity of
the first line item whose key contains `"BoxUsage"` (case-sensitive `in`)
and whose quantity is truthy (present and nonzero — Python
`if breakdown.metrics.usage_quantity:`); otherwise fall through and finally
return the fixed 720-hour estimate. -/
def calculate_running_hours : List CostBreakdown → ℚ
  | [] => 720
  | b :: rest =>
    if strContains b.key "BoxUsage" then
      match b.metrics.usage_quantity with
      | some q => if q ≠ 0 then q else calculate_running_hours rest
      | none => calculate_running_hours rest
    else calculate_running_hours rest

/-- `EC2CostAnalyzer._calculate_storage_gb_hours`: sum the truthy usage
quantities of line items whose key contains `"VolumeUsage"`. -/
def calculate_storage_gb_hours (breakdowns : List CostBreakdown) : ℚ :=
  breakdowns.foldl
    (fun acc b =>
      if strContains b.key "VolumeUsage" then
        match b.metrics.usage_quantity with
        | some q => if q ≠ 0 then acc + q else acc
        | none => acc
      else acc)
    0

/-- `EC2CostBreakdown` (`costdrill/core/ec2_models.py`): the per-resource
categorized analysis result. -/
structure EC2CostBreakdown where
  instance_id : String
  total_cost : CostAmount
  compute_cost : CostAmount
  storage_cost : CostAmount
  data_transfer_cost : CostAmount
  snapshot_cost : CostAmount
  elastic_ip_cost : CostAmount
  other_costs : CostAmount
  running_hours : ℚ
  storage_gb_hours : ℚ
  cost_per_hour : ℚ
  cost_per_gb_month : ℚ
  usage_type_breakdown : List (String × CostAmount) := []
  deriving Repr, DecidableEq

/-- `EC2CostAnalyzer.analyze_cost_breakdown`. -/
def analyze_cost_breakdown (instance_id : String)
    (cost_summary : CostSummary) : EC2CostBreakdown :=
  let acc := categorizeAll cost_summary.breakdowns
  let running_hours := calculate_running_hours cost_summary.breakdowns
  let storage_gb_hours := calculate_storage_gb_hours cost_summary.breakdowns
  let cost_per_hour :=
    if running_hours > 0 then acc.compute_cost / running_hours else 0
  let cost_per_gb_month :=
    if storage_gb_hours > 0 then acc.storage_cost / (storage_gb_hours / 730)
    else 0
  { instance_id := instance_id
    total_cost := cost_summary.total_cost
    compute_cost := { amount := acc.compute_cost }
    storage_cost := { amount := acc.storage_cost }
    data_transfer_cost := { amount := acc.data_transfer_cost }
    snapshot_cost := { amount := acc.snapshot_cost }
    elastic_ip_cost := { amount := acc.elastic_ip_cost }
    other_costs := { amount := acc.other_costs }
    running_hours := running_hours
    storage_gb_hours := storage_gb_hours
    cost_per_hour := cost_per_hour
    cost_per_gb_month := cost_per_gb_month
    usage_type_breakdown := acc.usage_type_breakdown }

/-- The sum of the six category cost amounts of an analysis result. -/
def sixCategorySum (b : EC2CostBreakdown) : ℚ :=
  b.compute_cost.amount + b.storage_cost.amount + b.data_transfer_cost.amount
    + b.snapshot_cost.amount + b.elastic_ip_cost.amount + b.other_costs.amount

/-- The sum of the values of the `usage_type_breakdown` mapping. -/
def usageTypeBreakdownSum (b : EC2CostBreakdown) : ℚ :=
  (b.usage_type_breakdown.map (fun kv => kv.2.amount)).sum

/-! ## Cost aggregator (`costdrill/core/ec2_cost_aggregator.py`)

The aggregator joins inventory metadata (`EC2Service`) with billing data
(`CostExplorer`).  The two network boundaries are modelled as explicit
arguments: the instance list is passed in, and the per-instance cost fetch
is an oracle `String → Except String CostSummary` (`Except.error` models a
raised exception in `cost_explorer.get_ec2_costs`, the only fallible call
inside `_get_instance_costs_from_summary` that the batch loop recovers
from). -/

/-- The slice of `EC2Instance` metadata the aggregation loop passes
through. -/
structure EC2Instance where
  instance_id : String
  state : String := "running"
  deriving Repr, DecidableEq

/-- `EC2InstanceWithCosts` (the source names the first field `instance`, a
reserved word in Lean). -/
structure EC2InstanceWithCosts where
  inst : EC2Instance
  cost_breakdown : EC2CostBreakdown
  start_date : ℚ
  end_date : ℚ
  deriving Repr, DecidableEq

/-- `EC2InstanceWithCosts.total_cost`. -/
def EC2InstanceWithCosts.total_cost (i : EC2InstanceWithCosts) : CostAmount :=
  i.cost_breakdown.total_cost

/-- `RegionalEC2Summary`. -/
structure RegionalEC2Summary where
  region : String
  instances : List EC2InstanceWithCosts
  total_cost : CostAmount
  start_date : ℚ
  end_date : ℚ
  deriving Repr, DecidableEq

/-- The body of the per-instance loop of
`EC2CostAggregator.get_all_instances_with_costs`: try the individual cost
fetch (`_get_instance_costs_from_summary`); on success categorize the
instance's own summary; on any exception log a warning and fall back to
`analyze_cost_breakdown(instance_id, regional_cost_summary)` — the
regional summary, which the adjacent comment asserts "Will result in
zeros". -/
def instanceWithCostsStep (fetch : String → Except String CostSummary)
    (regional_cost_summary : CostSummary) (start_date end_date : ℚ)
    (inst : EC2Instance) : EC2InstanceWithCosts :=
  match fetch inst.instance_id with
  | .ok instance_cost_summary =>
    { inst := inst
      cost_breakdown :=
        analyze_cost_breakdown inst.instance_id instance_cost_summary
      start_date := start_date
      end_date := end_date }
  | .error _ =>
    { inst := inst
      cost_breakdown :=
        analyze_cost_breakdown inst.instance_id regional_cost_summary
      start_date := start_date
      end_date := end_date }

/-- `EC2CostAggregator.get_all_instances_with_costs`, with the network
boundaries explicit: `instances` is the inventory list, `fetch` the
per-instance cost query, `regional_cost_summary` the result of the initial
region-wide cost query, and `now` the clock.  The empty-inventory
short-circuit returns a zero summary before the regional query; the batch
loop never propagates a per-instance failure. -/
def get_all_instances_with_costs (region : String) (days : ℚ) (now : ℚ)
    (instances : List EC2Instance) (regional_cost_summary : CostSummary)
    (fetch : String → Except String CostSummary) : RegionalEC2Summary :=
  if instances.isEmpty then
    { region := region
      instances := []
      total_cost := { amount := 0 }
      start_date := now - days
      end_date := now }
  else
    let start_date := now - days
    let end_date := now
    let instances_with_costs := instances.map
      (instanceWithCostsStep fetch regional_cost_summary start_date end_date)
    let total_cost : CostAmount :=
      { amount := (instances_with_costs.map
          (fun i => i.total_cost.amount)).sum }
    { region := region
      instances := instances_with_costs
      total_cost := total_cost
      start_date := start_date
      end_date := end_date }

/-! ## Billing query service (`costdrill/core/cost_explorer.py`)

Dates are rationals in days; `timedelta(days=n)` is `n`.  The network
boundary (`self.client.get_cost_and_usage`) is an oracle from the request
parameters to a raw response or a client error. -/

/-- The request parameters assembled by `get_cost_and_usage` just before
the network call. -/
structure QueryParams where
  periodStart : ℚ
  periodEnd : ℚ
  granularity : String := "DAILY"
  metrics : List String := ["UnblendedCost"]
  deriving Repr, DecidableEq

/-- `CostExplorer._validate_date_range`: the three pre-flight checks, in
source order, each raising `InvalidDateRangeError`. -/
def validate_date_range (now : ℚ) (start_date end_date : ℚ) :
    Except String Unit :=
  if start_date ≥ end_date then
    .error "Start date must be before end date"
  else if start_date < now - 425 then
    .error "Start date too far in the past"
  else if start_date > now then
    .error "Start date cannot be in the future"
  else
    .ok ()

/-- `CostExplorer.get_cost_and_usage`: apply the 30-day/now defaults,
validate the date range, and only then assemble the parameters and hit the
network (`fetch`), handing the raw response to the parser.  A `ClientError`
from the boundary is mapped by `_handle_api_error`; all its branches
re-raise, modelled as an `Except.error` carrying the message. -/
def get_cost_and_usage (now : ℚ) (start_date? end_date? : Option ℚ)
    (granularity : String) (metrics? : Option (List String))
    (fetch : QueryParams → Except String RawResponse) :
    Except String CostSummary := do
  let start_date := start_date?.getD (now - 30)
  let end_date := end_date?.getD now
  let _ ← validate_date_range now start_date end_date
  let metrics := metrics?.getD ["UnblendedCost"]
  let params : QueryParams :=
    { periodStart := start_date
      periodEnd := end_date
      granularity := granularity
      metrics := metrics }
  let response ← fetch params
  return parse_cost_and_usage_response response now

/-! ## Cache layer (`costdrill/utils/cache.py`)

The cache directory is a mapping from keys to entry files.  An entry file
either deserializes (`pickle.load` succeeds) to its stored value, expiry
and creation time, or raises — modelled by `CacheEntry.corrupted`.  The
SHA-256 filename derivation is injective on the keys in play and is
elided: the store is keyed by the cache key itself. -/

/-- One on-disk cache entry as seen by `SimpleCache.get`. -/
inductive CacheEntry (α : Type) where
  | corrupted
  | entry (value : α) (expiry : Option ℚ) (created_at : ℚ)
  deriving Repr, DecidableEq

/-- The cache directory: key → entry file. -/
def CacheStore (α : Type) : Type := List (String × CacheEntry α)

/-- `SimpleCache.get`: miss on a missing file; on a deserialization failure
delete the file and miss; past the expiry delete the file and miss
(`if expiry and datetime.now() > expiry` — an absent/None expiry skips the
check); otherwise a hit with the stored value.  Returns the result and the
resulting directory state. -/
def cache_get {α : Type} (now : ℚ) (store : CacheStore α) (key : String) :
    Option α × CacheStore α :=
  match dictGet? store key with
  | none => (none, store)
  | some .corrupted => (none, dictDelete store key)
  | some (.entry v expiry _) =>
    match expiry with
    | some e => if now > e then (none, dictDelete store key) else (some v, store)
    | none => (some v, store)

/-- `SimpleCache.set`: always overwrite, with expiry `now + ttl` (the
default TTL is applied by the caller-side `getD`). -/
def cache_set {α : Type} (now : ℚ) (default_ttl : ℚ) (store : CacheStore α)
    (key : String) (value : α) (ttl? : Option ℚ) : CacheStore α :=
  let ttl := ttl?.getD default_ttl
  dictSet store key (.entry value (some (now + ttl)) now)

/-! ## Cache key generation (`generate_cache_key` in `costdrill/utils/cache.py`)

`generate_cache_key(*args, **kwargs)` stringifies every argument with
`str(...)`, sorts the keyword items, and serializes
`{"args": [...], "kwargs": {...}}` with `json.dumps(..., sort_keys=True)`.
Python values are modelled by the `PyVal` type with Python's `str`
semantics; `json.dumps` (default separators, `ensure_ascii=True`,
`sort_keys=True`) is modelled literally on the two-level structure the
function builds. -/

/-- A Python argument value. -/
inductive PyVal where
  | int (n : ℤ)
  | str (s : String)
  | bool (b : Bool)
  deriving Repr, DecidableEq

/-- Python `str(...)` on a `PyVal`. -/
def pyStr : PyVal → String
  | .int n => toString n
  | .str s => s
  | .bool b => if b then "True" else "False"

/-- One hex digit, lowercase, as emitted by `json.dumps` `\uXXXX` escapes. -/
def hexDigit (n : Nat) : Char :=
  if n < 10 then Char.ofNat (48 + n) else Char.ofNat (87 + n)

/-- The JSON escape of one character under `ensure_ascii=True`: `"` and
`\` are backslash-escaped, the short control escapes are used where they
exist, and every other control or non-ASCII character becomes `\uXXXX`
(characters above the BMP would use surrogate pairs; no argument in play
contains one). -/
def jsonEscapeChar (c : Char) : String :=
  if c = '"' then "\\\""
  else if c = '\\' then "\\\\"
  else if c = Char.ofNat 8 then "\\b"
  else if c = Char.ofNat 9 then "\\t"
  else if c = Char.ofNat 10 then "\\n"
  else if c = Char.ofNat 12 then "\\f"
  else if c = Char.ofNat 13 then "\\r"
  else if c.toNat < 32 ∨ c.toNat ≥ 127 then
    String.mk ['\\', 'u',
      hexDigit (c.toNat / 4096 % 16), hexDigit (c.toNat / 256 % 16),
      hexDigit (c.toNat / 16 % 16), hexDigit (c.toNat % 16)]
  else String.mk [c]

/-- A JSON string literal. -/
def jsonString (s : String) : String :=
  "\"" ++ String.join (s.data.map jsonEscapeChar) ++ "\""

/-- A JSON array of strings (default `json.dumps` separators). -/
def jsonStringList (xs : List String) : String :=
  "[" ++ String.intercalate ", " (xs.map jsonString) ++ "]"

/-- A JSON object with string values, keys emitted in list order. -/
def jsonStringObject (kvs : List (String × String)) : String :=
  "\x7b" ++ String.intercalate ", "
    (kvs.map (fun kv => jsonString kv.1 ++ ": " ++ jsonString kv.2)) ++ "\x7d"

/-- The order in which `json.dumps(..., sort_keys=True)` emits the kwargs
items: ascending by key name.  The value tie-break mirrors the tuple
comparison of `sorted(kwargs.items())`; it is unreachable because dict keys
are unique. -/
def kwargLE (a b : String × String) : Prop :=
  a.1 < b.1 ∨ (a.1 = b.1 ∧ a.2 ≤ b.2)

instance : DecidableRel kwargLE := fun a b => by
  unfold kwargLE; infer_instance

/-- `generate_cache_key`: stringify the positional arguments in order and
the keyword arguments sorted by name, and serialize
`{"args": [...], "kwargs": {...}}` with the default `json.dumps`
formatting (`sort_keys=True` puts `"args"` before `"kwargs"` and sorts the
kwargs keys). -/
def generate_cache_key (args : List PyVal) (kwargs : List (String × PyVal)) :
    String :=
  let argStrs := args.map pyStr
  let kwargStrs := kwargs.map (fun kv => (kv.1, pyStr kv.2))
  "\x7b\"args\": " ++ jsonStringList argStrs ++ ", \"kwargs\": "
    ++ jsonStringObject (List.insertionSort kwargLE kwargStrs) ++ "\x7d"

/-! ## Helper lemmas -/

/-- The six running category totals of the loop state, summed. -/
def sixAccSum (acc : CatAcc) : ℚ :=
  acc.compute_cost + acc.storage_cost + acc.data_transfer_cost
    + acc.snapshot_cost + acc.elastic_ip_cost + acc.other_costs

theorem sixAccSum_categorizeStep (acc : CatAcc) (b : CostBreakdown) :
    sixAccSum (categorizeStep acc b) = sixAccSum acc + b.cost.amount := by
  unfold categorizeStep sixAccSum
  cases categorize b.key <;> simp <;> ring

theorem sixAccSum_foldl (l : List CostBreakdown) :
    ∀ acc : CatAcc,
      sixAccSum (l.foldl categorizeStep acc)
        = sixAccSum acc + (l.map (fun b => b.cost.amount)).sum := by
  induction l with
  | nil => intro acc; simp
  | cons b rest ih =>
    intro acc
    simp only [List.foldl_cons, List.map_cons, List.sum_cons,
      ih (categorizeStep acc b), sixAccSum_categorizeStep]
    ring

theorem dictGet?_dictSet_self {β : Type} (d : List (String × β)) (k : String)
    (v : β) : dictGet? (dictSet d k v) k = some v := by
  induction d with
  | nil => simp [dictSet, dictGet?, List.find?]
  | cons kv rest ih =>
    by_cases h : kv.1 == k
    · simp [dictSet, h, dictGet?, List.find?]
    · simp only [dictSet, h, if_false, Bool.false_eq_true, ite_false]
      simpa [dictGet?, List.find?, h] using ih

theorem dictGet?_dictSet_ne {β : Type} (d : List (String × β))
    (k' k : String) (v : β) (h : k' ≠ k) :
    dictGet? (dictSet d k' v) k = dictGet? d k := by
  induction d with
  | nil =>
    have : (k' == k) = false := by simpa using h
    simp [dictSet, dictGet?, List.find?, this]
  | cons kv rest ih =>
    by_cases hh : kv.1 == k'
    · have hh' : kv.1 = k' := by simpa using hh
      have hk : (kv.1 == k) = false := by
        simp only [beq_eq_false_iff_ne, ne_eq, hh']
        exact h
      have hk2 : (k' == k) = false := by simpa using h
      simp [dictSet, hh, dictGet?, List.find?, hk, hk2]
    · simp only [dictSet, hh, Bool.false_eq_true, ite_false]
      by_cases hk : kv.1 == k
      · simp [dictGet?, List.find?, hk]
      · simpa [dictGet?, List.find?, hk] using ih

theorem usage_type_breakdown_categorizeStep (acc : CatAcc)
    (b : CostBreakdown) :
    (categorizeStep acc b).usage_type_breakdown
      = dictSet acc.usage_type_breakdown b.key b.cost := by
  unfold categorizeStep
  cases categorize b.key <;> simp

theorem categorizeAll_last_wins (l : List CostBreakdown) (k : String) :
    dictGet? (categorizeAll l).usage_type_breakdown k
      = ((l.filter (fun b => b.key == k)).getLast?).map
          (fun b => b.cost) := by
  induction l using List.reverseRecOn with
  | nil => simp [categorizeAll, dictGet?, List.find?]
  | append_singleton l b ih =>
    have hfold : categorizeAll (l ++ [b])
        = categorizeStep (categorizeAll l) b := by
      simp [categorizeAll]
    rw [hfold, usage_type_breakdown_categorizeStep]
    by_cases hb : b.key == k
    · have hk : b.key = k := by simpa using hb
      rw [← hk, dictGet?_dictSet_self]
      simp [List.filter_append, hb, List.getLast?_concat]
    · have hk : b.key ≠ k := by simpa using hb
      rw [dictGet?_dictSet_ne _ _ _ _ hk]
      simp [List.filter_append, hb, ih]

/-! ## Claim theorems -/

/-- C3: for every `CostSummary`, in `analyze_cost_breakdown`'s result the
sum of the six category costs (compute, storage, data-transfer, snapshot,
elastic-IP, other) equals the sum of the cost amounts of all input
breakdown line items — each line item is added to exactly one category,
none dropped, none counted twice.  (The model computes with exact
rationals, so equality is exact, which is stronger than the claimed
floating-point tolerance.) -/
theorem analyze_cost_breakdown_conserves_cost (instance_id : String)
    (s : CostSummary) :
    sixCategorySum (analyze_cost_breakdown instance_id s)
      = (s.breakdowns.map (fun b => b.cost.amount)).sum := by
  have h := sixAccSum_foldl s.breakdowns {}
  simp only [sixAccSum] at h
  simp only [analyze_cost_breakdown, sixCategorySum, categorizeAll]
  simpa using h

/-- The concrete summary for the duplicate-key behaviour of C9: the same
usage-type key appears in two periods' line items with different costs. -/
def exC9 : CostSummary :=
  { start_date := 0
    end_date := 30
    time_series := []
    total_cost := { amount := 3 }
    breakdowns :=
      [{ category := "USAGE_TYPE", key := "BoxUsage:t3.micro"
         cost := { amount := 1 }
         metrics := { unblended_cost := { amount := 1 } } },
       { category := "USAGE_TYPE", key := "BoxUsage:t3.micro"
         cost := { amount := 2 }
         metrics := { unblended_cost := { amount := 2 } } }] }

/-- C9: when a `CostSummary` contains two or more breakdown line items with
the same usage-type key, `analyze_cost_breakdown`'s
`usage_type_breakdown` mapping holds only the cost of the last such line
item for each key (first conjunct: the mapping at every key is the cost of
the last line item with that key), while the six category sums include
every occurrence (second conjunct); consequently the mapping's values need
not sum to the categorized total (third conjunct: a summary with a
duplicated key where the two totals differ). -/
theorem usage_type_breakdown_last_write_wins :
    (∀ (instance_id : String) (s : CostSummary) (k : String),
      dictGet?
          (analyze_cost_breakdown instance_id s).usage_type_breakdown k
        = ((s.breakdowns.filter (fun b => b.key == k)).getLast?).map
            (fun b => b.cost))
    ∧ (∀ (instance_id : String) (s : CostSummary),
        sixCategorySum (analyze_cost_breakdown instance_id s)
          = (s.breakdowns.map (fun b => b.cost.amount)).sum)
    ∧ usageTypeBreakdownSum (analyze_cost_breakdown "i-1" exC9)
        ≠ sixCategorySum (analyze_cost_breakdown "i-1" exC9) := by
  refine ⟨?_, ?_, ?_⟩
  · intro instance_id s k
    simpa [analyze_cost_breakdown] using
      categorizeAll_last_wins s.breakdowns k
  · intro instance_id s
    have h := sixAccSum_foldl s.breakdowns {}
    simp only [sixAccSum] at h
    simp only [analyze_cost_breakdown, sixCategorySum, categorizeAll]
    simpa using h
  · have hc : categorize "BoxUsage:t3.micro" = Category.compute := by decide
    simp [exC9, analyze_cost_breakdown, categorizeAll, categorizeStep, hc,
      dictSet, usageTypeBreakdownSum, sixCategorySum]

/-- C4 counterexample: the claim — "every usage-type string that matches
both a snapshot pattern and a storage pattern is classified as snapshot" —
fails on a string that additionally matches a compute pattern, because the
compute group is tried first: `"BoxUsageEBS:SnapshotUsage"` matches a
snapshot pattern and a storage pattern, yet is classified compute, not
snapshot. -/
theorem categorize_snapshot_claim_counterexample :
    regexSearch SNAPSHOT_PATTERNS "BoxUsageEBS:SnapshotUsage" = true
    ∧ regexSearch STORAGE_PATTERNS "BoxUsageEBS:SnapshotUsage" = true
    ∧ categorize "BoxUsageEBS:SnapshotUsage" = Category.compute
    ∧ categorize "BoxUsageEBS:SnapshotUsage" ≠ Category.snapshot := by
  decide

/-- C4 (amended): categorization tries the pattern groups in the fixed
order compute, snapshot, storage, data-transfer, fixed-IP with first match
winning; every usage-type string that matches both a snapshot pattern and
a storage pattern *and no compute pattern* is classified as snapshot; and
a string matching a snapshot pattern is never classified as storage. -/
theorem categorize_snapshot_before_storage (u : String)
    (hsnap : regexSearch SNAPSHOT_PATTERNS u = true)
    (_hstor : regexSearch STORAGE_PATTERNS u = true)
    (hcomp : regexSearch COMPUTE_PATTERNS u = false) :
    categorize u = Category.snapshot
      ∧ categorize u ≠ Category.storage := by
  unfold categorize
  simp [hsnap, hcomp]

/-- C4 witness: the EBS snapshot-usage string named by the claim matches
both the snapshot and the storage patterns, matches no compute pattern,
and is classified snapshot and not storage. -/
theorem categorize_snapshot_before_storage_witness :
    regexSearch SNAPSHOT_PATTERNS "EBS:SnapshotUsage" = true
    ∧ regexSearch STORAGE_PATTERNS "EBS:SnapshotUsage" = true
    ∧ regexSearch COMPUTE_PATTERNS "EBS:SnapshotUsage" = false
    ∧ (categorize "EBS:SnapshotUsage" = Category.snapshot
        ∧ categorize "EBS:SnapshotUsage" ≠ Category.storage) :=
  ⟨by decide, by decide, by decide,
    categorize_snapshot_before_storage "EBS:SnapshotUsage"
      (by decide) (by decide) (by decide)⟩

/-- A line item that `_calculate_running_hours` accepts: its key contains
`"BoxUsage"` and its usage quantity is truthy (present and nonzero). -/
def boxUsageTruthyQty (b : CostBreakdown) : Bool :=
  strContains b.key "BoxUsage" &&
    (match b.metrics.usage_quantity with
     | some q => q != 0
     | none => false)

/-- The C8 counterexample line item: a box-usage line that carries a usage
quantity, but the quantity is `0.0` — falsy in Python. -/
def exC8 : List CostBreakdown :=
  [{ category := "USAGE_TYPE", key := "BoxUsage:t3.micro"
     cost := { amount := 5 }
     metrics := { unblended_cost := { amount := 5 }
                  usage_quantity := some 0 } }]

/-- C8 counterexample: the claim — `running_hours` equals the usage
quantity of a box-usage line item whenever some box-usage line item
carries a usage quantity — fails when the carried quantity is `0.0`: the
Python truthiness test `if breakdown.metrics.usage_quantity:` skips the
line, and the result is the 720-hour fallback, which is the quantity of no
line item. -/
theorem calculate_running_hours_counterexample :
    (∃ b ∈ exC8, strContains b.key "BoxUsage" = true
        ∧ b.metrics.usage_quantity.isSome = true)
    ∧ calculate_running_hours exC8 = 720
    ∧ ∀ b ∈ exC8,
        b.metrics.usage_quantity ≠ some (calculate_running_hours exC8) := by
  refine ⟨⟨exC8.head (by decide), by decide, by decide, by decide⟩, ?_, ?_⟩
  · simp [exC8, calculate_running_hours, strContains]
  · intro b hb
    simp [exC8] at hb
    subst hb
    simp [exC8, calculate_running_hours, strContains]

/-- C8 (amended): `running_hours` equals the usage quantity of the *first*
line item whose key contains the box-usage marker and whose usage quantity
is present and nonzero; it equals the fixed fallback 720.0 when no such
line exists (a box-usage line whose quantity is absent or zero is skipped
by the Python truthiness test). -/
theorem calculate_running_hours_spec :
    (∀ l : List CostBreakdown,
      (∀ b ∈ l, boxUsageTruthyQty b = false) →
      calculate_running_hours l = 720)
    ∧ (∀ (l₁ l₂ : List CostBreakdown) (b : CostBreakdown) (q : ℚ),
        (∀ x ∈ l₁, boxUsageTruthyQty x = false) →
        strContains b.key "BoxUsage" = true →
        b.metrics.usage_quantity = some q → q ≠ 0 →
        calculate_running_hours (l₁ ++ b :: l₂) = q) := by
  constructor
  · intro l hl
    induction l with
    | nil => rfl
    | cons b rest ih =>
      have hb := hl b (by simp)
      have hrest := ih (fun x hx => hl x (by simp [hx]))
      unfold calculate_running_hours
      by_cases hc : strContains b.key "BoxUsage"
      · simp only [boxUsageTruthyQty, hc, Bool.true_and] at hb
        cases hq : b.metrics.usage_quantity with
        | none => simp [hc, hq, hrest]
        | some q =>
          rw [hq] at hb
          have : q = 0 := by simpa using hb
          simp [hc, hq, this, hrest]
      · simp [hc, hrest]
  · intro l₁ l₂ b q h₁ hc hq hq0
    induction l₁ with
    | nil =>
      unfold calculate_running_hours
      simp [hc, hq, hq0]
    | cons x rest ih =>
      have hx := h₁ x (by simp)
      have hrest := ih (fun y hy => h₁ y (by simp [hy]))
      unfold calculate_running_hours
      by_cases hcx : strContains x.key "BoxUsage"
      · simp only [boxUsageTruthyQty, hcx, Bool.true_and] at hx
        cases hqx : x.metrics.usage_quantity with
        | none => simpa [hcx, hqx] using hrest
        | some qx =>
          rw [hqx] at hx
          have : qx = 0 := by simpa using hx
          simpa [hcx, hqx, this] using hrest
      · simpa [hcx] using hrest

/-- C8 witness: with a leading non-box line and a box-usage line carrying
quantity 100, the running hours are 100; and on a list with no truthy
box-usage quantity the fallback 720 is returned. -/
theorem calculate_running_hours_spec_witness :
    calculate_running_hours
        [{ category := "USAGE_TYPE", key := "EBS:VolumeUsage.gp3"
           cost := { amount := 1 }
           metrics := { unblended_cost := { amount := 1 } } },
         { category := "USAGE_TYPE", key := "BoxUsage:t3.micro"
           cost := { amount := 5 }
           metrics := { unblended_cost := { amount := 5 }
                        usage_quantity := some 100 } }] = 100
    ∧ calculate_running_hours [] = 720 :=
  ⟨calculate_running_hours_spec.2
      [{ category := "USAGE_TYPE", key := "EBS:VolumeUsage.gp3"
         cost := { amount := 1 }
         metrics := { unblended_cost := { amount := 1 } } }]
      []
      { category := "USAGE_TYPE", key := "BoxUsage:t3.micro"
        cost := { amount := 5 }
        metrics := { unblended_cost := { amount := 5 }
                     usage_quantity := some 100 } }
      100
      (by decide) (by decide) rfl (by norm_num),
    calculate_running_hours_spec.1 [] (by simp)⟩

theorem splitOnChar_no_sep (sep : Char) (l : List Char) (h : sep ∉ l) :
    splitOnChar sep l = (l, []) := by
  induction l with
  | nil => rfl
  | cons c rest ih =>
    have hc : c ≠ sep := fun hc => h (by simp [hc])
    have hrest : sep ∉ rest := fun hr => h (by simp [hr])
    simp [splitOnChar, ih hrest, hc]

theorem splitOnChar_append_sep (sep : Char) (c k : List Char)
    (h : sep ∉ c) :
    splitOnChar sep (c ++ sep :: k)
      = (c, (splitOnChar sep k).1 :: (splitOnChar sep k).2) := by
  induction c with
  | nil => simp [splitOnChar]
  | cons x rest ih =>
    have hx : x ≠ sep := fun hx => h (by simp [hx])
    have hrest : sep ∉ rest := fun hr => h (by simp [hr])
    simp [splitOnChar, ih hrest, hx]

theorem splitOnChar_fst_takeWhile (sep : Char) (l : List Char) :
    (splitOnChar sep l).1 = l.takeWhile (fun ch => ch != sep) := by
  induction l with
  | nil => rfl
  | cons c rest ih =>
    by_cases hc : c = sep
    · simp [splitOnChar, hc, List.takeWhile]
    · have hb : (c != sep) = true := by simpa using hc
      simp [splitOnChar, hc, List.takeWhile, ih, hb]

/-- The C2 counterexample response: one period carrying one group whose
composite key contains two `$` delimiters. -/
def exC2 : RawResponse :=
  { resultsByTime :=
      [{ periodStart := 0
         periodEnd := 1
         total := { unblendedCost := some { amount := 10 } }
         groups :=
           [{ keys := ["USAGE_TYPE$Box$Usage"]
              metrics := { unblendedCost := some { amount := 10 } } }] }] }

/-- C2 counterexample: the claim — the entire remainder after the first
`$`, including any further `$` characters, becomes the key — fails on the
composite key string `"USAGE_TYPE$Box$Usage"`: `str.split("$")` splits on
every `$` and the code takes only the second field, so the parsed key is
`"Box"`, not the claimed `"Box$Usage"`. -/
theorem parse_group_key_counterexample :
    ((parse_cost_and_usage_response exC2 0).breakdowns.map
        (fun b => (b.category, b.key)))
      = [("USAGE_TYPE", "Box")]
    ∧ ("Box" : String) ≠ "Box$Usage" := by
  constructor
  · rfl
  · decide

/-- C2 (amended): each group's composite key string is split on the `$`
delimiter: the text before the first `$` becomes the breakdown's category
and the text strictly between the first and second `$` (the whole
remainder when there is no second `$`) becomes the key — any text from a
second `$` onward is dropped; for every key string containing no `$`, the
category is `"UNKNOWN"` and the whole string is the key. -/
theorem split_category_key_spec :
    (∀ l : List Char, '$' ∉ l →
      splitCategoryKey (String.mk l) = ("UNKNOWN", String.mk l))
    ∧ (∀ c k : List Char, '$' ∉ c →
        splitCategoryKey (String.mk (c ++ '$' :: k))
          = (String.mk c, String.mk (k.takeWhile (fun ch => ch != '$')))) := by
  constructor
  · intro l hl
    unfold splitCategoryKey strSplit
    simp [splitOnChar_no_sep '$' l hl]
  · intro c k hc
    unfold splitCategoryKey strSplit
    simp [splitOnChar_append_sep '$' c k hc, splitOnChar_fst_takeWhile]

/-- C2 witness: a delimiter-free key maps to category `"UNKNOWN"` with the
whole string as key, and `"USAGE_TYPE$Box$Usage"` maps to category
`"USAGE_TYPE"` with key `"Box"` — the text between the first and second
`$`. -/
theorem split_category_key_spec_witness :
    splitCategoryKey (String.mk "NoDelimiter".data)
        = ("UNKNOWN", String.mk "NoDelimiter".data)
    ∧ splitCategoryKey
          (String.mk ("USAGE_TYPE".data ++ '$' :: "Box$Usage".data))
        = (String.mk "USAGE_TYPE".data,
           String.mk ("Box$Usage".data.takeWhile (fun ch => ch != '$'))) :=
  ⟨split_category_key_spec.1 "NoDelimiter".data (by decide),
   split_category_key_spec.2 "USAGE_TYPE".data "Box$Usage".data (by decide)⟩

/-- C5: for every response, the parsed `CostSummary`'s total cost amount
equals the sum of the periods' unblended cost amounts (first conjunct —
exact rational equality, stronger than the claimed 1e-9 tolerance; a
response with zero periods sums to the empty sum 0), and the total is
computed from the per-period totals only, never re-derived from the
grouped breakdown entries (second conjunct: arbitrarily rewriting every
period's `Groups` leaves the total unchanged). -/
theorem parse_total_from_periods_only :
    (∀ (resp : RawResponse) (now : ℚ),
      (parse_cost_and_usage_response resp now).total_cost.amount
        = (resp.resultsByTime.map
            (fun r =>
              (r.total.unblendedCost.getD
                  { amount := 0, unit := "USD" }).amount)).sum)
    ∧ (∀ (resp : RawResponse) (now : ℚ)
        (f : List RawGroup → List RawGroup),
        (parse_cost_and_usage_response
            { resp with
              resultsByTime := resp.resultsByTime.map
                (fun r => { r with groups := f r.groups }) } now
          ).total_cost.amount
          = (parse_cost_and_usage_response resp now).total_cost.amount) := by
  have key : ∀ (resp : RawResponse) (now : ℚ),
      (parse_cost_and_usage_response resp now).total_cost.amount
        = (resp.resultsByTime.map
            (fun r =>
              (r.total.unblendedCost.getD
                  { amount := 0, unit := "USD" }).amount)).sum := by
    intro resp now
    rcases h : resp.resultsByTime with _ | ⟨first, rest⟩
    · simp [parse_cost_and_usage_response, h]
    · simp only [parse_cost_and_usage_response, h, List.map_map]
      rfl
  refine ⟨key, ?_⟩
  intro resp now f
  rw [key, key, List.map_map]
  rfl

/-- C6: date-range validation raises an invalid-date-range error exactly
when start ≥ end, or start is earlier than now − 425 days, or start is in
the future (first conjunct); for every non-forecast cost query the
validation runs before any network call — on an invalid range
`get_cost_and_usage` returns the error without consulting the network
boundary, so its result is independent of the fetch oracle (second
conjunct); and a query with start 400 days ago and end 10 days ago passes
validation (third conjunct). -/
theorem validate_date_range_spec :
    (∀ now s e : ℚ,
      (∃ msg, validate_date_range now s e = .error msg)
        ↔ (s ≥ e ∨ s < now - 425 ∨ s > now))
    ∧ (∀ (now s e : ℚ) (g : String) (m : Option (List String))
        (f₁ f₂ : QueryParams → Except String RawResponse),
        (s ≥ e ∨ s < now - 425 ∨ s > now) →
        get_cost_and_usage now (some s) (some e) g m f₁
            = get_cost_and_usage now (some s) (some e) g m f₂
          ∧ ∃ msg, get_cost_and_usage now (some s) (some e) g m f₁
              = .error msg)
    ∧ (∀ now : ℚ,
        validate_date_range now (now - 400) (now - 10) = .ok ()) := by
  have herr : ∀ now s e : ℚ, (s ≥ e ∨ s < now - 425 ∨ s > now) →
      ∃ msg, validate_date_range now s e = .error msg := by
    intro now s e h
    unfold validate_date_range
    by_cases h1 : s ≥ e
    · exact ⟨"Start date must be before end date", by rw [if_pos h1]⟩
    · by_cases h2 : s < now - 425
      · exact ⟨"Start date too far in the past",
          by rw [if_neg h1, if_pos h2]⟩
      · have h3 : s > now := by tauto
        exact ⟨"Start date cannot be in the future",
          by rw [if_neg h1, if_neg h2, if_pos h3]⟩
  constructor
  · intro now s e
    constructor
    · rintro ⟨msg, hmsg⟩
      by_contra hcon
      push_neg at hcon
      obtain ⟨h1, h2, h3⟩ := hcon
      unfold validate_date_range at hmsg
      rw [if_neg (not_le.mpr h1), if_neg (not_lt.mpr h2),
        if_neg (not_lt.mpr h3)] at hmsg
      exact Except.noConfusion hmsg
    · exact herr now s e
  refine ⟨?_, ?_⟩
  · intro now s e g m f₁ f₂ h
    obtain ⟨msg, hmsg⟩ := herr now s e h
    unfold get_cost_and_usage
    simp only [Option.getD_some, hmsg]
    exact ⟨rfl, msg, rfl⟩
  · intro now
    unfold validate_date_range
    rw [if_neg (by linarith), if_neg (by linarith), if_neg (by linarith)]

/-- C6 witness: at `now = 0`, the degenerate range `start = end = 0` is
rejected with the same error whatever the network boundary would have
answered, and the 400-days-ago/10-days-ago range is accepted. -/
theorem validate_date_range_spec_witness :
    ((0 : ℚ) ≥ 0 ∨ (0 : ℚ) < 0 - 425 ∨ (0 : ℚ) > 0)
    ∧ (get_cost_and_usage 0 (some 0) (some 0) "DAILY" none
          (fun _ => .ok {})
        = get_cost_and_usage 0 (some 0) (some 0) "DAILY" none
            (fun _ => .error "ThrottlingException")
      ∧ ∃ msg, get_cost_and_usage 0 (some 0) (some 0) "DAILY" none
          (fun _ => .ok {}) = .error msg)
    ∧ validate_date_range 0 (0 - 400) (0 - 10) = .ok () :=
  ⟨Or.inl le_rfl,
   validate_date_range_spec.2.1 0 0 0 "DAILY" none
     (fun _ => .ok {}) (fun _ => .error "ThrottlingException")
     (Or.inl le_rfl),
   validate_date_range_spec.2.2 0⟩

/-- C10: for every key whose stored cache entry cannot be deserialized,
`SimpleCache.get` returns a miss and deletes that entry's file as a side
effect (first conjunct), so corrupted entries are reclaimed on the read
path itself; and a hit is returned only for an entry that deserializes and
whose expiry has not passed — the returned value is exactly the stored
one, the store is left unchanged, and any present expiry is ≥ now (second
conjunct). -/
theorem cache_get_spec {α : Type} (now : ℚ) (store : CacheStore α)
    (key : String) :
    (dictGet? store key = some CacheEntry.corrupted →
      cache_get now store key = (none, dictDelete store key))
    ∧ (∀ (v : α) (store' : CacheStore α),
        cache_get now store key = (some v, store') →
        store' = store
          ∧ ∃ expiry created,
              dictGet? store key
                  = some (CacheEntry.entry v expiry created)
                ∧ ∀ e, expiry = some e → now ≤ e) := by
  constructor
  · intro h
    unfold cache_get
    rw [h]
  · intro v store' h
    unfold cache_get at h
    cases hfind : dictGet? store key with
    | none => rw [hfind] at h; simp at h
    | some entry =>
      rw [hfind] at h
      cases entry with
      | corrupted => simp at h
      | entry w expiry created =>
        cases expiry with
        | none =>
          simp only [Prod.mk.injEq, Option.some.injEq] at h
          obtain ⟨hv, hs⟩ := h
          subst hv
          exact ⟨hs.symm, ⟨none, created,
            rfl, fun e he => Option.noConfusion he⟩⟩
        | some ex =>
          by_cases hex : now > ex
          · simp only [if_pos hex] at h
            simp at h
          · simp only [if_neg hex, Prod.mk.injEq, Option.some.injEq] at h
            obtain ⟨hv, hs⟩ := h
            subst hv
            exact ⟨hs.symm, ⟨some ex, created, rfl,
              fun e he => by cases he; exact not_lt.mp hex⟩⟩

/-- The concrete cache directory for the C10 witness: one corrupted entry
and one healthy entry. -/
def exC10 : CacheStore String :=
  [("billing-key", CacheEntry.corrupted),
   ("other-key", CacheEntry.entry "payload" (some 10) 0)]

/-- C10 witness: reading the corrupted entry at time 0 misses and deletes
exactly that entry's file. -/
theorem cache_get_spec_witness :
    dictGet? exC10 "billing-key" = some CacheEntry.corrupted
    ∧ cache_get 0 exC10 "billing-key"
        = (none, dictDelete exC10 "billing-key") :=
  ⟨by decide, (cache_get_spec 0 exC10 "billing-key").1 (by decide)⟩

instance : IsTrans (String × String) kwargLE :=
  ⟨by
    rintro a b c (hab | ⟨hab1, hab2⟩) (hbc | ⟨hbc1, hbc2⟩)
    · exact Or.inl (lt_trans hab hbc)
    · exact Or.inl (hbc1 ▸ hab)
    · exact Or.inl (hab1 ▸ hbc)
    · exact Or.inr ⟨hab1.trans hbc1, le_trans hab2 hbc2⟩⟩

instance : IsTotal (String × String) kwargLE :=
  ⟨by
    intro a b
    rcases lt_trichotomy a.1 b.1 with h | h | h
    · exact Or.inl (Or.inl h)
    · rcases le_total a.2 b.2 with h2 | h2
      · exact Or.inl (Or.inr ⟨h, h2⟩)
      · exact Or.inr (Or.inr ⟨h.symm, h2⟩)
    · exact Or.inr (Or.inl h)⟩

instance : IsAntisymm (String × String) kwargLE :=
  ⟨by
    rintro a b (h1 | ⟨e1, l1⟩) (h2 | ⟨e2, l2⟩)
    · exact absurd h2 (lt_asymm h1)
    · exact absurd h1 (e2 ▸ lt_irrefl a.1)
    · exact absurd h2 (e1 ▸ lt_irrefl a.1)
    · exact Prod.ext e1 (le_antisymm l1 l2)⟩

/-- C7 counterexample: the claim — for every pair of calls that differ in
any argument value, the resulting keys differ — fails because every
argument is first rendered with Python `str(...)`: the integer `1` and the
string `"1"` are different argument values with the same rendering, so
they produce the same cache key. -/
theorem generate_cache_key_collision :
    generate_cache_key [PyVal.int 1] [] = generate_cache_key [PyVal.str "1"] []
    ∧ PyVal.int 1 ≠ PyVal.str "1" := by
  constructor
  · rfl
  · decide

/-- C7 (amended): `generate_cache_key` is a function of the string
renderings of the argument values only: two calls whose positional
arguments have equal `str(...)` renderings and whose keyword arguments
have equal renderings up to permutation of keyword order yield the same
key string.  In particular identical calls in any keyword order agree, and
distinct values with identical renderings (such as `1` and `"1"`)
collide. -/
theorem generate_cache_key_str_congruence (a₁ a₂ : List PyVal)
    (k₁ k₂ : List (String × PyVal))
    (hargs : a₁.map pyStr = a₂.map pyStr)
    (hkw : (k₁.map (fun kv => (kv.1, pyStr kv.2))).Perm
             (k₂.map (fun kv => (kv.1, pyStr kv.2)))) :
    generate_cache_key a₁ k₁ = generate_cache_key a₂ k₂ := by
  simp only [generate_cache_key]
  rw [hargs]
  have hsort : List.insertionSort kwargLE
        (k₁.map (fun kv => (kv.1, pyStr kv.2)))
      = List.insertionSort kwargLE
          (k₂.map (fun kv => (kv.1, pyStr kv.2))) :=
    List.eq_of_perm_of_sorted
      (((List.perm_insertionSort kwargLE _).trans hkw).trans
        (List.perm_insertionSort kwargLE _).symm)
      (List.sorted_insertionSort kwargLE _)
      (List.sorted_insertionSort kwargLE _)
  rw [hsort]

/-- C7 witness: swapping the keyword order and replacing the positional
integer `1` by the string `"1"` (same rendering) leaves the generated key
unchanged. -/
theorem generate_cache_key_str_congruence_witness :
    ([PyVal.int 1].map pyStr = [PyVal.str "1"].map pyStr)
    ∧ generate_cache_key [PyVal.int 1]
          [("region", PyVal.str "us-east-1"), ("days", PyVal.int 30)]
        = generate_cache_key [PyVal.str "1"]
            [("days", PyVal.int 30), ("region", PyVal.str "us-east-1")] :=
  ⟨by decide,
   generate_cache_key_str_congruence _ _ _ _ (by decide) (by decide)⟩

/-- The C1 failing input: the region-wide cost query returned a summary
with a 100.00 total carried by one box-usage line item. -/
def exC1regional : CostSummary :=
  { start_date := -30
    end_date := 0
    time_series := []
    total_cost := { amount := 100 }
    breakdowns :=
      [{ category := "USAGE_TYPE", key := "BoxUsage:m5.large"
         cost := { amount := 100 }
         metrics := { unblended_cost := { amount := 100 } } }] }

/-- The C1 failing input: a single instance whose individual cost fetch
raises. -/
def exC1instances : List EC2Instance :=
  [{ instance_id := "i-00000001" }]

/-- The C1 failing input: the per-instance cost fetch always raises (for
example a throttling error from the billing boundary). -/
def exC1fetch : String → Except String CostSummary :=
  fun _ => .error "ThrottlingException"

/-- C1: the claim (and the code's own comments "Create instance with zero
costs as fallback" / "Will result in zeros") says a failed per-instance
cost fetch is replaced by a zero-cost breakdown and the regional total is
the sum of the successfully fetched instances' totals.  The code instead
substitutes `analyze_cost_breakdown(instance_id, regional_cost_summary)`,
handing the failed instance the *regional* summary's costs: with one
instance whose fetch fails and a regional summary totalling 100.00, the
instance is kept and the failure is not propagated (the parts of the claim
that hold), but its substituted breakdown totals 100.00 with compute cost
100.00, and the regional total is 100.00, not the claimed 0.00. -/
theorem aggregator_fallback_is_not_zero :
    (get_all_instances_with_costs "us-east-1" 30 0 exC1instances
        exC1regional exC1fetch).instances.map
          (fun i => i.inst.instance_id) = ["i-00000001"]
    ∧ (get_all_instances_with_costs "us-east-1" 30 0 exC1instances
        exC1regional exC1fetch).instances.map
          (fun i => i.cost_breakdown.total_cost.amount) = [100]
    ∧ (get_all_instances_with_costs "us-east-1" 30 0 exC1instances
        exC1regional exC1fetch).instances.map
          (fun i => i.cost_breakdown.compute_cost.amount) = [100]
    ∧ (get_all_instances_with_costs "us-east-1" 30 0 exC1instances
        exC1regional exC1fetch).total_cost.amount = 100
    ∧ (100 : ℚ) ≠ 0 := by
  have hc : categorize "BoxUsage:m5.large" = Category.compute := by decide
  refine ⟨?_, ?_, ?_, ?_, by norm_num⟩ <;>
    simp [get_all_instances_with_costs, instanceWithCostsStep, exC1fetch,
      exC1instances, exC1regional, analyze_cost_breakdown, categorizeAll,
      categorizeStep, hc, EC2InstanceWithCosts.total_cost]

end Costdrill
